import Mathlib

/-!
Verification of the filter pipeline of `App.py` (slot-car tire search).

The pipeline is the module-level "APPLY FILTERS" block of `App.py`
(lines 87-108).  It operates on a pandas DataFrame whose cells are
strings (the loader does `fillna("")` and `dtype=str`), and narrows it
with five guarded stages:

  1. `if "All" not in selected_compounds: df[df["Compound"].isin(selected_compounds)]`
  2. `if selected_brand != "All":        df[df["Brand"] == selected_brand]`
  3. `if model_search:                   df[df["Model"].str.contains(model_search, case=False, na=False)]`
  4. `if selected_position != "All":     df[df["Position"].str.contains(selected_position, case=False, na=False)]`
  5. `if free_search:                    df[Notes.str.contains(..) | Tire_Part.str.contains(..)]`

Two library behaviours matter for the claims and are embedded explicitly:

  * `df[col]` on a DataFrame lacking `col` raises `KeyError`; stages are
    therefore modelled in `Except String`, with column lookups guarded.
  * `Series.str.contains(pat, case=False, na=False)` treats `pat` as a
    regular expression (pandas default `regex=True`): the pattern is
    compiled with `re.IGNORECASE` and the element matches when
    `re.search` finds the pattern anywhere in it.  An invalid pattern
    (for example `"("`) raises `re.error` at compile time.

The regular-expression model below covers the core of Python `re`
syntax used by such patterns: literal characters, `.`, the quantifiers
`*`, `+`, `?`, alternation `|`, and grouping `( )`.  Constructs outside
that core are rejected by the parser; no theorem below depends on the
behaviour of a pattern outside the core.  Matching is by Brzozowski
derivatives, and `re.search` semantics is "some contiguous substring is
in the pattern's language".
-/

/-- Case-insensitive character comparison, modelling `re.IGNORECASE`. -/
def eqCI (c d : Char) : Bool := c.toLower == d.toLower

/-- Syntax of the modelled core of Python regular expressions.
`void` denotes the empty language; it is produced only by derivatives,
never by the parser. -/
inductive Re where
  | void
  | eps
  | chr (c : Char)
  | dot
  | seq (a b : Re)
  | alt (a b : Re)
  | star (a : Re)
deriving Repr, DecidableEq

/-- Does the regular expression accept the empty string? -/
def nullable : Re → Bool
  | .void => false
  | .eps => true
  | .chr _ => false
  | .dot => false
  | .seq a b => nullable a && nullable b
  | .alt a b => nullable a || nullable b
  | .star _ => true

/-- Brzozowski derivative with respect to one input character.
`dot` does not match a newline (Python `re` without `DOTALL`), and
character comparison is case-insensitive (the pipeline always passes
`case=False`). -/
def reDeriv (r : Re) (c : Char) : Re :=
  match r with
  | .void => .void
  | .eps => .void
  | .chr d => if eqCI d c then .eps else .void
  | .dot => if c = '\n' then .void else .eps
  | .seq a b => if nullable a then .alt (.seq (reDeriv a c) b) (reDeriv b c) else .seq (reDeriv a c) b
  | .alt a b => .alt (reDeriv a c) (reDeriv b c)
  | .star a => .seq (reDeriv a c) (.star a)

/-- Does some prefix of `s` belong to the language of `r`? -/
def existsMatchFrom (r : Re) (s : List Char) : Bool :=
  match s with
  | [] => nullable r
  | c :: cs => nullable r || existsMatchFrom (reDeriv r c) cs

/-- `re.search` as a Boolean: does some contiguous substring of `s`
belong to the language of `r`? -/
def reSearch (r : Re) (s : List Char) : Bool :=
  match s with
  | [] => nullable r
  | c :: cs => existsMatchFrom r (c :: cs) || reSearch r cs

/-- The characters that are special in Python `re` syntax. -/
def META : List Char :=
  ['.', '^', '$', '*', '+', '?', '\x7b', '\x7d', '[', ']', '\\', '|', '(', ')']

/-- After a quantifier, a second immediately following quantifier is the
Python `re` error "multiple repeat". -/
def quantGuard (r : Re) (s : List Char) : Except String (Re × List Char) :=
  match s with
  | [] => Except.ok (r, [])
  | c :: _ =>
    if c = '*' ∨ c = '+' ∨ c = '?' then Except.error "multiple repeat"
    else Except.ok (r, s)

/-- Apply an optional postfix quantifier to a parsed atom. -/
def applyQuant (a : Re) (s : List Char) : Except String (Re × List Char) :=
  match s with
  | [] => Except.ok (a, [])
  | c :: rest =>
    if c = '*' then quantGuard (Re.star a) rest
    else if c = '+' then quantGuard (Re.seq a (Re.star a)) rest
    else if c = '?' then quantGuard (Re.alt a Re.eps) rest
    else Except.ok (a, s)

mutual

/-- Parse one atom: a group, a dot, or a literal character.  Other
metacharacters (classes, anchors, escapes, braces) are outside the
modelled core and rejected. -/
def parseAtom : Nat → List Char → Except String (Re × List Char)
  | 0, _ => Except.error "internal fuel exhausted"
  | _ + 1, [] => Except.error "expected atom"
  | fuel + 1, c :: rest =>
    if c = '.' then Except.ok (Re.dot, rest)
    else if c = '(' then
      match parseAlt fuel rest with
      | Except.error e => Except.error e
      | Except.ok (r, rest2) =>
        match rest2 with
        | ')' :: rest3 => Except.ok (r, rest3)
        | _ => Except.error "missing ), unterminated subpattern"
    else if c ∈ META then Except.error "unsupported metacharacter"
    else Except.ok (Re.chr c, rest)

/-- Parse a (possibly empty) sequence of quantified atoms, stopping at
`)` or `|`.  A leading quantifier is the Python `re` error "nothing to
repeat". -/
def parseSeq : Nat → List Char → Except String (Re × List Char)
  | 0, _ => Except.error "internal fuel exhausted"
  | _ + 1, [] => Except.ok (Re.eps, [])
  | fuel + 1, c :: rest =>
    if c = ')' ∨ c = '|' then Except.ok (Re.eps, c :: rest)
    else if c = '*' ∨ c = '+' ∨ c = '?' then Except.error "nothing to repeat"
    else
      match parseAtom fuel (c :: rest) with
      | Except.error e => Except.error e
      | Except.ok (a, rest2) =>
        match applyQuant a rest2 with
        | Except.error e => Except.error e
        | Except.ok (a2, rest3) =>
          match parseSeq fuel rest3 with
          | Except.error e => Except.error e
          | Except.ok (r, rest4) => Except.ok (Re.seq a2 r, rest4)

/-- Parse an alternation of sequences. -/
def parseAlt : Nat → List Char → Except String (Re × List Char)
  | 0, _ => Except.error "internal fuel exhausted"
  | fuel + 1, s =>
    match parseSeq fuel s with
    | Except.error e => Except.error e
    | Except.ok (r, rest) =>
      match rest with
      | '|' :: rest2 =>
        match parseAlt fuel rest2 with
        | Except.error e => Except.error e
        | Except.ok (r2, rest3) => Except.ok (Re.alt r r2, rest3)
      | _ => Except.ok (r, rest)

end

/-- `re.compile` for the modelled core: parse the whole pattern or
report an error.  A stray `)` left over is an unbalanced parenthesis. -/
def parseRe (pat : String) : Except String Re :=
  match parseAlt (2 * pat.data.length + 4) pat.data with
  | Except.ok (r, []) => Except.ok r
  | Except.ok (_, _ :: _) => Except.error "unbalanced parenthesis"
  | Except.error e => Except.error e

/-- `Series.str.contains(pat, case=False, na=False)` applied to one
cell, after the pattern has been compiled to `r`. -/
def strContainsCI (r : Re) (s : String) : Bool := reSearch r s.data

/-- A row of the loaded table: column label to string cell.  The loader
(`load_data`) reads every cell as a string and replaces missing values
by `""`. -/
abbrev Row := List (String × String)

/-- Cell lookup in a row; rows of a loaded DataFrame carry every column
of the frame, so the `""` default is never exercised on well-formed
data. -/
def getCell (row : Row) (col : String) : String :=
  match row.find? (fun p => p.fst == col) with
  | some p => p.snd
  | none => ""

/-- The in-memory table: column labels plus ordered rows. -/
structure DataFrame where
  cols : List String
  rows : List Row
deriving Repr, DecidableEq

/-- The filter criteria gathered by the sidebar, named as in `App.py`:
`selected_compounds` (multiselect), `selected_brand` (selectbox),
`model_search` (stripped text input), `selected_position` (selectbox),
`free_search` (stripped text input). -/
structure FilterCriteria where
  selected_compounds : List String
  selected_brand : String
  model_search : String
  selected_position : String
  free_search : String
deriving Repr, DecidableEq

deriving instance DecidableEq for Except

/-- Stage 1, `App.py` lines 89-90:
`if "All" not in selected_compounds: df[df["Compound"].isin(selected_compounds)]`. -/
def compoundStage (sel : List String) (df : DataFrame) : Except String DataFrame :=
  if "All" ∈ sel then Except.ok df
  else if "Compound" ∈ df.cols then
    Except.ok { cols := df.cols, rows := df.rows.filter (fun row => sel.contains (getCell row "Compound")) }
  else Except.error "KeyError: Compound"

/-- Stage 2, `App.py` lines 92-93:
`if selected_brand != "All": df[df["Brand"] == selected_brand]`. -/
def brandStage (brand : String) (df : DataFrame) : Except String DataFrame :=
  if brand = "All" then Except.ok df
  else if "Brand" ∈ df.cols then
    Except.ok { cols := df.cols, rows := df.rows.filter (fun row => getCell row "Brand" == brand) }
  else Except.error "KeyError: Brand"

/-- One `df[df[col].str.contains(pat, case=False, na=False)]` step: the
column lookup (KeyError when absent), then pattern compilation
(re.error when invalid), then the row-wise search mask. -/
def containsStage (col : String) (pat : String) (df : DataFrame) : Except String DataFrame :=
  if col ∈ df.cols then
    match parseRe pat with
    | Except.error e => Except.error e
    | Except.ok r =>
      Except.ok { cols := df.cols, rows := df.rows.filter (fun row => strContainsCI r (getCell row col)) }
  else Except.error ("KeyError: " ++ col)

/-- Stage 3, `App.py` lines 95-98: `if model_search: ...str.contains...`
(an empty text input is falsy, so the stage is skipped). -/
def modelStage (c : FilterCriteria) (df : DataFrame) : Except String DataFrame :=
  if c.model_search = "" then Except.ok df
  else containsStage "Model" c.model_search df

/-- Stage 4, `App.py` lines 100-101:
`if selected_position != "All": ...str.contains...`. -/
def positionStage (c : FilterCriteria) (df : DataFrame) : Except String DataFrame :=
  if c.selected_position = "All" then Except.ok df
  else containsStage "Position" c.selected_position df

/-- Stage 5, `App.py` lines 103-108: the Notes/Tire_Part disjunctive
mask.  Evaluation order follows Python: the `Notes` lookup and pattern
compilation happen before the `Tire_Part` lookup. -/
def freeStage (c : FilterCriteria) (df : DataFrame) : Except String DataFrame :=
  if c.free_search = "" then Except.ok df
  else if "Notes" ∈ df.cols then
    match parseRe c.free_search with
    | Except.error e => Except.error e
    | Except.ok r =>
      if "Tire_Part" ∈ df.cols then
        Except.ok { cols := df.cols, rows := df.rows.filter (fun row =>
          strContainsCI r (getCell row "Notes") || strContainsCI r (getCell row "Tire_Part")) }
      else Except.error "KeyError: Tire_Part"
  else Except.error "KeyError: Notes"

/-- The whole "APPLY FILTERS" block of `App.py` (lines 87-108):
`filtered_df = df.copy()` followed by the five guarded stages in
program order. -/
def applyFilters (df : DataFrame) (c : FilterCriteria) : Except String DataFrame :=
  (((((Except.ok df).bind (compoundStage c.selected_compounds)).bind
      (brandStage c.selected_brand)).bind
      (modelStage c)).bind
      (positionStage c)).bind
      (freeStage c)

/-- The literal regular expression spelling out a character sequence. -/
def lit : List Char → Re
  | [] => Re.eps
  | c :: p => Re.seq (Re.chr c) (lit p)

/-- Lower-case image of a character sequence. -/
def lowerL (s : List Char) : List Char := s.map Char.toLower

/-- Is the first sequence a prefix of the second? -/
def startsWithL : List Char → List Char → Bool
  | [], _ => true
  | _ :: _, [] => false
  | c :: p, d :: h => (c == d) && startsWithL p h

/-- Does the first sequence occur contiguously inside the second? -/
def subOcc (pat hay : List Char) : Bool :=
  match hay with
  | [] => startsWithL pat []
  | _ :: t => startsWithL pat hay || subOcc pat t

/-- Comparator following the spec's words: the spec describes the three
`str.contains` stages as keeping a row when the query occurs in the
field "as a substring, case-insensitively".  This definition is the
spec's reading, to be compared with the code's regex semantics. -/
def specContainsCI (hay pat : String) : Bool := subOcc (lowerL pat.data) (lowerL hay.data)

/-- No character of the sequence is special in Python `re` syntax. -/
def metaFreeL (s : List Char) : Prop := ∀ c ∈ s, c ∉ META

/-- No character of the pattern is special in Python `re` syntax; for
such a pattern `re.search` coincides with literal substring search. -/
def metaFree (s : String) : Prop := metaFreeL s.data

/-- Decidability of the metacharacter-free predicate, for concrete
witnesses. -/
instance metaFreeDec (s : String) : Decidable (metaFree s) :=
  inferInstanceAs (Decidable (∀ c ∈ s.data, c ∉ META))

/-- Every pipeline stage, on success, keeps the columns and restricts
the rows by a row-wise predicate; moreover it acts the same way on any
frame with the same columns. -/
def StageLike (f : DataFrame → Except String DataFrame) : Prop :=
  ∀ df v, f df = Except.ok v →
    v.cols = df.cols ∧ ∃ p : Row → Bool, v.rows = df.rows.filter p ∧
      ∀ w : DataFrame, w.cols = df.cols →
        f w = Except.ok { cols := w.cols, rows := w.rows.filter p }

lemma emf_void (s : List Char) : existsMatchFrom Re.void s = false := by
  induction s with
  | nil => rfl
  | cons c cs ih => simp [existsMatchFrom, nullable, reDeriv, ih]

lemma emf_eps (s : List Char) : existsMatchFrom Re.eps s = true := by
  cases s <;> simp [existsMatchFrom, nullable]

lemma emf_seq_void (r : Re) (s : List Char) :
    existsMatchFrom (Re.seq Re.void r) s = false := by
  induction s with
  | nil => rfl
  | cons c cs ih => simp [existsMatchFrom, nullable, reDeriv, ih]

lemma emf_alt (x y : Re) (s : List Char) :
    existsMatchFrom (Re.alt x y) s = (existsMatchFrom x s || existsMatchFrom y s) := by
  induction s generalizing x y with
  | nil => rfl
  | cons c cs ih =>
    simp only [existsMatchFrom, nullable, reDeriv, ih]
    cases nullable x <;> cases nullable y <;>
      cases existsMatchFrom (reDeriv x c) cs <;> cases existsMatchFrom (reDeriv y c) cs <;> rfl

lemma emf_seq_eps (r : Re) (s : List Char) :
    existsMatchFrom (Re.seq Re.eps r) s = existsMatchFrom r s := by
  cases s with
  | nil => simp [existsMatchFrom, nullable]
  | cons c cs =>
    simp [existsMatchFrom, nullable, reDeriv, emf_alt, emf_seq_void]

lemma emf_lit (p : List Char) : ∀ s : List Char,
    existsMatchFrom (lit p) s = startsWithL (lowerL p) (lowerL s) := by
  induction p with
  | nil => intro s; simp [lit, emf_eps, lowerL, startsWithL]
  | cons c p ih =>
    intro s
    cases s with
    | nil => simp [lit, existsMatchFrom, nullable, lowerL, startsWithL]
    | cons d s =>
      have hstep : existsMatchFrom (lit (c :: p)) (d :: s)
          = existsMatchFrom (Re.seq (if eqCI c d then Re.eps else Re.void) (lit p)) s := by
        simp [lit, existsMatchFrom, nullable, reDeriv]
      rw [hstep]
      by_cases h : eqCI c d = true
      · rw [if_pos h, emf_seq_eps, ih s]
        unfold eqCI at h
        simp [lowerL, startsWithL, h]
      · rw [if_neg h, emf_seq_void]
        unfold eqCI at h
        simp only [Bool.not_eq_true] at h
        simp [lowerL, startsWithL, h]

lemma nullable_lit (p : List Char) : nullable (lit p) = startsWithL (lowerL p) [] := by
  cases p <;> simp [lit, nullable, lowerL, startsWithL]

lemma reSearch_lit (p s : List Char) : reSearch (lit p) s = subOcc (lowerL p) (lowerL s) := by
  induction s with
  | nil => simp [reSearch, subOcc, nullable_lit]
  | cons c cs ih => simp [reSearch, subOcc, emf_lit, ih, lowerL]

lemma strContainsCI_lit (pat s : String) :
    strContainsCI (lit pat.data) s = specContainsCI s pat :=
  reSearch_lit pat.data s.data


lemma parseAtom_chr (fuel : Nat) (c : Char) (rest : List Char) (h : c ∉ META) :
    parseAtom (fuel + 1) (c :: rest) = Except.ok (Re.chr c, rest) := by
  have h1 : ¬ c = '.' := fun e => h (by rw [e]; decide)
  have h2 : ¬ c = '(' := fun e => h (by rw [e]; decide)
  simp [parseAtom, h1, h2, h]

lemma applyQuant_mf (a : Re) (s : List Char) (h : metaFreeL s) :
    applyQuant a s = Except.ok (a, s) := by
  cases s with
  | nil => rfl
  | cons c rest =>
    have hc : c ∉ META := h c (List.mem_cons_self c rest)
    have h1 : ¬ c = '*' := fun e => hc (by rw [e]; decide)
    have h2 : ¬ c = '+' := fun e => hc (by rw [e]; decide)
    have h3 : ¬ c = '?' := fun e => hc (by rw [e]; decide)
    simp [applyQuant, h1, h2, h3]

lemma parseSeq_mf : ∀ (fuel : Nat) (s : List Char), metaFreeL s → s.length < fuel →
    parseSeq fuel s = Except.ok (lit s, []) := by
  intro fuel
  induction fuel with
  | zero => intro s _ hl; exact absurd hl (Nat.not_lt_zero _)
  | succ n ih =>
    intro s hmf hl
    cases s with
    | nil => simp [parseSeq, lit]
    | cons c rest =>
      have hc : c ∉ META := hmf c (List.mem_cons_self c rest)
      have hrest : metaFreeL rest := fun x hx => hmf x (List.mem_cons_of_mem c hx)
      have hg1 : ¬ (c = ')' ∨ c = '|') := by
        rintro (e | e) <;> subst e <;> exact hc (by decide)
      have hg2 : ¬ (c = '*' ∨ c = '+' ∨ c = '?') := by
        rintro (e | e | e) <;> subst e <;> exact hc (by decide)
      obtain ⟨m, rfl⟩ : ∃ m, n = m + 1 := by
        cases n with
        | zero => simp at hl
        | succ m => exact ⟨m, rfl⟩
      have hlen : rest.length < m + 1 := by simp at hl; omega
      simp [parseSeq, hg1, hg2, parseAtom_chr m c rest hc,
        applyQuant_mf (Re.chr c) rest hrest, ih rest hrest hlen, lit]

lemma parseAlt_mf (fuel : Nat) (s : List Char) (hmf : metaFreeL s) (hl : s.length + 1 < fuel) :
    parseAlt fuel s = Except.ok (lit s, []) := by
  obtain ⟨n, rfl⟩ : ∃ n, fuel = n + 1 := ⟨fuel - 1, by omega⟩
  simp [parseAlt, parseSeq_mf n s hmf (by omega)]

lemma parseRe_mf (pat : String) (h : metaFree pat) : parseRe pat = Except.ok (lit pat.data) := by
  unfold parseRe
  rw [parseAlt_mf (2 * pat.data.length + 4) pat.data h (by omega)]


lemma filter_true_eq {α : Type} (l : List α) : l.filter (fun _ => true) = l := by
  induction l with
  | nil => rfl
  | cons a t ih => simp [List.filter, ih]

lemma SL_compoundStage (sel : List String) : StageLike (compoundStage sel) := by
  intro df v h
  by_cases hAll : "All" ∈ sel
  · unfold compoundStage at h
    rw [if_pos hAll] at h
    injection h with h
    subst h
    refine ⟨rfl, fun _ => true, (filter_true_eq _).symm, ?_⟩
    intro w _
    unfold compoundStage
    rw [if_pos hAll, filter_true_eq]
  · by_cases hcol : "Compound" ∈ df.cols
    · unfold compoundStage at h
      rw [if_neg hAll, if_pos hcol] at h
      injection h with h
      subst h
      refine ⟨rfl, fun row => sel.contains (getCell row "Compound"), rfl, ?_⟩
      intro w hw
      unfold compoundStage
      rw [if_neg hAll, if_pos (show "Compound" ∈ w.cols by rw [hw]; exact hcol)]
    · unfold compoundStage at h
      rw [if_neg hAll, if_neg hcol] at h
      exact Except.noConfusion h

lemma SL_brandStage (brand : String) : StageLike (brandStage brand) := by
  intro df v h
  by_cases hb : brand = "All"
  · unfold brandStage at h
    rw [if_pos hb] at h
    injection h with h
    subst h
    refine ⟨rfl, fun _ => true, (filter_true_eq _).symm, ?_⟩
    intro w _
    unfold brandStage
    rw [if_pos hb, filter_true_eq]
  · by_cases hcol : "Brand" ∈ df.cols
    · unfold brandStage at h
      rw [if_neg hb, if_pos hcol] at h
      injection h with h
      subst h
      refine ⟨rfl, fun row => getCell row "Brand" == brand, rfl, ?_⟩
      intro w hw
      unfold brandStage
      rw [if_neg hb, if_pos (show "Brand" ∈ w.cols by rw [hw]; exact hcol)]
    · unfold brandStage at h
      rw [if_neg hb, if_neg hcol] at h
      exact Except.noConfusion h

lemma SL_containsStage (col pat : String) : StageLike (containsStage col pat) := by
  intro df v h
  by_cases hcol : col ∈ df.cols
  · unfold containsStage at h
    rw [if_pos hcol] at h
    cases hp : parseRe pat with
    | error e =>
      rw [hp] at h
      exact Except.noConfusion h
    | ok r =>
      rw [hp] at h
      injection h with h
      subst h
      refine ⟨rfl, fun row => strContainsCI r (getCell row col), rfl, ?_⟩
      intro w hw
      unfold containsStage
      rw [if_pos (show col ∈ w.cols by rw [hw]; exact hcol), hp]
  · unfold containsStage at h
    rw [if_neg hcol] at h
    exact Except.noConfusion h

lemma SL_modelStage (c : FilterCriteria) : StageLike (modelStage c) := by
  intro df v h
  by_cases he : c.model_search = ""
  · unfold modelStage at h
    rw [if_pos he] at h
    injection h with h
    subst h
    refine ⟨rfl, fun _ => true, (filter_true_eq _).symm, ?_⟩
    intro w _
    unfold modelStage
    rw [if_pos he, filter_true_eq]
  · unfold modelStage at h
    rw [if_neg he] at h
    obtain ⟨hcols, p, hrows, hstab⟩ := SL_containsStage "Model" c.model_search df v h
    refine ⟨hcols, p, hrows, ?_⟩
    intro w hw
    unfold modelStage
    rw [if_neg he]
    exact hstab w hw

lemma SL_positionStage (c : FilterCriteria) : StageLike (positionStage c) := by
  intro df v h
  by_cases he : c.selected_position = "All"
  · unfold positionStage at h
    rw [if_pos he] at h
    injection h with h
    subst h
    refine ⟨rfl, fun _ => true, (filter_true_eq _).symm, ?_⟩
    intro w _
    unfold positionStage
    rw [if_pos he, filter_true_eq]
  · unfold positionStage at h
    rw [if_neg he] at h
    obtain ⟨hcols, p, hrows, hstab⟩ := SL_containsStage "Position" c.selected_position df v h
    refine ⟨hcols, p, hrows, ?_⟩
    intro w hw
    unfold positionStage
    rw [if_neg he]
    exact hstab w hw

lemma SL_freeStage (c : FilterCriteria) : StageLike (freeStage c) := by
  intro df v h
  by_cases he : c.free_search = ""
  · unfold freeStage at h
    rw [if_pos he] at h
    injection h with h
    subst h
    refine ⟨rfl, fun _ => true, (filter_true_eq _).symm, ?_⟩
    intro w _
    unfold freeStage
    rw [if_pos he, filter_true_eq]
  · by_cases hN : "Notes" ∈ df.cols
    · unfold freeStage at h
      rw [if_neg he, if_pos hN] at h
      cases hp : parseRe c.free_search with
      | error e =>
        simp only [hp] at h
        exact Except.noConfusion h
      | ok r =>
        simp only [hp] at h
        by_cases hT : "Tire_Part" ∈ df.cols
        · rw [if_pos hT] at h
          injection h with h
          subst h
          refine ⟨rfl, fun row =>
            strContainsCI r (getCell row "Notes") || strContainsCI r (getCell row "Tire_Part"), rfl, ?_⟩
          intro w hw
          have hN2 : "Notes" ∈ w.cols := by rw [hw]; exact hN
          have hT2 : "Tire_Part" ∈ w.cols := by rw [hw]; exact hT
          simp [freeStage, he, hN2, hT2, hp]
        · rw [if_neg hT] at h
          exact Except.noConfusion h
    · unfold freeStage at h
      rw [if_neg he, if_neg hN] at h
      exact Except.noConfusion h

lemma bind_ok {α β : Type} (x : α) (f : α → Except String β) : (Except.ok x).bind f = f x := rfl

lemma SL_comp {f g : DataFrame → Except String DataFrame}
    (hf : StageLike f) (hg : StageLike g) : StageLike (fun df => (f df).bind g) := by
  intro df v h
  replace h : (f df).bind g = Except.ok v := h
  cases hm : f df with
  | error e =>
    rw [hm] at h
    exact Except.noConfusion h
  | ok m =>
    rw [hm] at h
    have h2 : g m = Except.ok v := h
    obtain ⟨hc1, p, hp1, hs1⟩ := hf df m hm
    obtain ⟨hc2, q, hp2, hs2⟩ := hg m v h2
    refine ⟨hc2.trans hc1, fun a => q a && p a, ?_, ?_⟩
    · rw [hp2, hp1, List.filter_filter]
    · intro w hw
      have e1 := hs1 w hw
      have e2 := hs2 ⟨w.cols, w.rows.filter p⟩ (hw.trans hc1.symm)
      show (f w).bind g = _
      rw [e1, bind_ok, e2, List.filter_filter]

lemma applyFilters_SL (c : FilterCriteria) : StageLike (fun df => applyFilters df c) :=
  SL_comp (SL_comp (SL_comp (SL_comp (SL_compoundStage c.selected_compounds)
    (SL_brandStage c.selected_brand)) (SL_modelStage c)) (SL_positionStage c)) (SL_freeStage c)

lemma bind_error {α β : Type} (e : String) (f : α → Except String β) :
    (Except.error e : Except String α).bind f = Except.error e := rfl

lemma compoundStage_pass (sel : List String) (df : DataFrame) (h : "All" ∈ sel) :
    compoundStage sel df = Except.ok df := by
  unfold compoundStage
  rw [if_pos h]

lemma brandStage_pass (brand : String) (df : DataFrame) (h : brand = "All") :
    brandStage brand df = Except.ok df := by
  unfold brandStage
  rw [if_pos h]

lemma modelStage_pass (c : FilterCriteria) (df : DataFrame) (h : c.model_search = "") :
    modelStage c df = Except.ok df := by
  unfold modelStage
  rw [if_pos h]

lemma positionStage_pass (c : FilterCriteria) (df : DataFrame) (h : c.selected_position = "All") :
    positionStage c df = Except.ok df := by
  unfold positionStage
  rw [if_pos h]

lemma freeStage_pass (c : FilterCriteria) (df : DataFrame) (h : c.free_search = "") :
    freeStage c df = Except.ok df := by
  unfold freeStage
  rw [if_pos h]

lemma containsStage_literal (col pat : String) (df : DataFrame)
    (hcol : col ∈ df.cols) (hmf : metaFree pat) :
    containsStage col pat df = Except.ok
      { cols := df.cols, rows := df.rows.filter (fun row => specContainsCI (getCell row col) pat) } := by
  unfold containsStage
  rw [if_pos hcol]
  simp only [parseRe_mf pat hmf]
  have hfun : (fun row : Row => strContainsCI (lit pat.data) (getCell row col))
      = (fun row : Row => specContainsCI (getCell row col) pat) :=
    funext (fun row => strContainsCI_lit pat (getCell row col))
  rw [hfun]

lemma freeStage_literal (c : FilterCriteria) (df : DataFrame)
    (hne : ¬ c.free_search = "") (hN : "Notes" ∈ df.cols) (hT : "Tire_Part" ∈ df.cols)
    (hmf : metaFree c.free_search) :
    freeStage c df = Except.ok
      { cols := df.cols, rows := df.rows.filter (fun row =>
          specContainsCI (getCell row "Notes") c.free_search ||
          specContainsCI (getCell row "Tire_Part") c.free_search) } := by
  unfold freeStage
  rw [if_neg hne, if_pos hN]
  simp only [parseRe_mf c.free_search hmf]
  rw [if_pos hT]
  have hfun : (fun row : Row => strContainsCI (lit c.free_search.data) (getCell row "Notes")
        || strContainsCI (lit c.free_search.data) (getCell row "Tire_Part"))
      = (fun row : Row => specContainsCI (getCell row "Notes") c.free_search
        || specContainsCI (getCell row "Tire_Part") c.free_search) :=
    funext (fun row => by
      rw [strContainsCI_lit c.free_search (getCell row "Notes"),
        strContainsCI_lit c.free_search (getCell row "Tire_Part")])
  rw [hfun]

lemma specContainsCI_empty_hay (pat : String) (h : ¬ pat = "") : specContainsCI "" pat = false := by
  cases pat with
  | mk l =>
    cases l with
    | nil => exact absurd rfl h
    | cons c t => rfl


/-- C1 counterexample: with the `Compound` column absent and a specific
compound selected, the pipeline raises `KeyError` instead of treating
the column as empty strings. -/
theorem pipeline_absent_compound_cex :
    applyFilters ⟨["Brand", "Model", "Position", "Notes", "Tire_Part"], [[("Brand", "NSR")]]⟩
      ⟨["Silicone"], "All", "", "All", ""⟩ = Except.error "KeyError: Compound" := by
  decide

/-- C1 (amended): if the `Compound` column is absent from the table and
the compound stage is active (the sentinel `"All"` is not among the
selected compounds), the filter pipeline raises `KeyError: Compound`
rather than treating every row's value as the empty string.  (A stage
whose criteria is at its no-restriction value never touches its column,
so it cannot raise.) -/
theorem pipeline_absent_compound_raises (df : DataFrame) (c : FilterCriteria)
    (h1 : "All" ∉ c.selected_compounds) (h2 : "Compound" ∉ df.cols) :
    applyFilters df c = Except.error "KeyError: Compound" := by
  have hcs : compoundStage c.selected_compounds df = Except.error "KeyError: Compound" := by
    unfold compoundStage
    rw [if_neg h1, if_neg h2]
  unfold applyFilters
  rw [bind_ok, hcs, bind_error, bind_error, bind_error, bind_error]

/-- C1 witness. -/
theorem pipeline_absent_compound_raises_witness :
    applyFilters ⟨["Brand", "Model"], [[("Brand", "Policar"), ("Model", "Porsche 917")]]⟩
      ⟨["Urethane", "Rubber"], "All", "", "All", ""⟩ = Except.error "KeyError: Compound" :=
  pipeline_absent_compound_raises _ _ (by decide) (by decide)

/-- C2 counterexample: the free-text value `"("` is an invalid regular
expression, so the pipeline raises even though every referenced column
is present and every cell is a string. -/
theorem pipeline_regex_error_cex :
    applyFilters ⟨["Compound", "Brand", "Model", "Position", "Notes", "Tire_Part"],
        [[("Notes", "x"), ("Tire_Part", "y")]]⟩
      ⟨["All"], "All", "", "All", "("⟩ = Except.error "missing ), unterminated subpattern" := by
  decide

/-- C2 (amended): the filter stages are not total over arbitrary query
strings, because the three `str.contains` stages compile their query as
a regular expression.  Provided the referenced columns are present and
the model, position and free-text queries contain no regex
metacharacter (hence compile), the pipeline raises no error. -/
theorem pipeline_ok_of_valid (df : DataFrame) (c : FilterCriteria)
    (h1 : "Compound" ∈ df.cols) (h2 : "Brand" ∈ df.cols) (h3 : "Model" ∈ df.cols)
    (h4 : "Position" ∈ df.cols) (h5 : "Notes" ∈ df.cols) (h6 : "Tire_Part" ∈ df.cols)
    (m1 : metaFree c.model_search) (m2 : metaFree c.selected_position)
    (m3 : metaFree c.free_search) :
    ∃ out, applyFilters df c = Except.ok out := by
  obtain ⟨v1, hv1⟩ : ∃ v, compoundStage c.selected_compounds df = Except.ok v := by
    by_cases hAll : "All" ∈ c.selected_compounds
    · exact ⟨df, compoundStage_pass _ _ hAll⟩
    · have heq : compoundStage c.selected_compounds df = Except.ok
          { cols := df.cols,
            rows := df.rows.filter (fun row => c.selected_compounds.contains (getCell row "Compound")) } := by
        unfold compoundStage
        rw [if_neg hAll, if_pos h1]
      exact ⟨_, heq⟩
  have hc1 : v1.cols = df.cols := (SL_compoundStage _ df v1 hv1).1
  obtain ⟨v2, hv2⟩ : ∃ v, brandStage c.selected_brand v1 = Except.ok v := by
    by_cases hb : c.selected_brand = "All"
    · exact ⟨v1, brandStage_pass _ _ hb⟩
    · have heq : brandStage c.selected_brand v1 = Except.ok
          { cols := v1.cols,
            rows := v1.rows.filter (fun row => getCell row "Brand" == c.selected_brand) } := by
        unfold brandStage
        rw [if_neg hb, if_pos (show "Brand" ∈ v1.cols by rw [hc1]; exact h2)]
      exact ⟨_, heq⟩
  have hc2 : v2.cols = df.cols := (SL_brandStage _ v1 v2 hv2).1.trans hc1
  obtain ⟨v3, hv3⟩ : ∃ v, modelStage c v2 = Except.ok v := by
    by_cases hm : c.model_search = ""
    · exact ⟨v2, modelStage_pass _ _ hm⟩
    · have heq : modelStage c v2 = Except.ok
          { cols := v2.cols,
            rows := v2.rows.filter (fun row => specContainsCI (getCell row "Model") c.model_search) } := by
        unfold modelStage
        rw [if_neg hm]
        exact containsStage_literal "Model" c.model_search v2
          (show "Model" ∈ v2.cols by rw [hc2]; exact h3) m1
      exact ⟨_, heq⟩
  have hc3 : v3.cols = df.cols := (SL_modelStage _ v2 v3 hv3).1.trans hc2
  obtain ⟨v4, hv4⟩ : ∃ v, positionStage c v3 = Except.ok v := by
    by_cases hpz : c.selected_position = "All"
    · exact ⟨v3, positionStage_pass _ _ hpz⟩
    · have heq : positionStage c v3 = Except.ok
          { cols := v3.cols,
            rows := v3.rows.filter (fun row => specContainsCI (getCell row "Position") c.selected_position) } := by
        unfold positionStage
        rw [if_neg hpz]
        exact containsStage_literal "Position" c.selected_position v3
          (show "Position" ∈ v3.cols by rw [hc3]; exact h4) m2
      exact ⟨_, heq⟩
  have hc4 : v4.cols = df.cols := (SL_positionStage _ v3 v4 hv4).1.trans hc3
  obtain ⟨v5, hv5⟩ : ∃ v, freeStage c v4 = Except.ok v := by
    by_cases hf : c.free_search = ""
    · exact ⟨v4, freeStage_pass _ _ hf⟩
    · exact ⟨_, freeStage_literal c v4 hf
        (show "Notes" ∈ v4.cols by rw [hc4]; exact h5)
        (show "Tire_Part" ∈ v4.cols by rw [hc4]; exact h6) m3⟩
  refine ⟨v5, ?_⟩
  unfold applyFilters
  rw [bind_ok, hv1, bind_ok, hv2, bind_ok, hv3, bind_ok, hv4, bind_ok, hv5]

/-- C2 witness. -/
theorem pipeline_ok_of_valid_witness :
    ∃ out, applyFilters
      ⟨["Compound", "Brand", "Model", "Position", "Notes", "Tire_Part"],
        [[("Compound", "Silicone"), ("Brand", "NSR"), ("Model", "M4 Coupe"),
          ("Position", "Rear"), ("Notes", "fits 917"), ("Tire_Part", "QS-01")]]⟩
      ⟨["Silicone"], "NSR", "m4", "Rear", "917"⟩ = Except.ok out :=
  pipeline_ok_of_valid _ _ (by decide) (by decide) (by decide) (by decide) (by decide)
    (by decide) (by decide) (by decide) (by decide)

/-- C3 counterexample: the Model query is a regular expression, not a
literal substring.  With `Model = "AB"` and `modelSubstring = "A."` the
stage keeps the row (the regex `A.` matches `AB`) although `"A."` does
not occur in `"AB"` as a literal substring, so "keeps a row iff the
Model field contains modelSubstring as a literal substring" is false. -/
theorem modelStage_regex_cex :
    modelStage ⟨["All"], "All", "A.", "All", ""⟩ ⟨["Model"], [[("Model", "AB")]]⟩
        = Except.ok ⟨["Model"], [[("Model", "AB")]]⟩
      ∧ specContainsCI "AB" "A." = false := by
  decide

/-- C3 (amended): provided the table has a `Model` column and
`modelSubstring` contains no regex metacharacter, the Model stage keeps
a row iff the row's Model field contains `modelSubstring` as a literal
substring, compared case-insensitively; then an empty Model field never
matches a non-empty `modelSubstring`, and an empty `modelSubstring`
passes every row through.  (In general `modelSubstring` is interpreted
as a case-insensitive regular expression, which the counterexample
shows to differ from literal containment.) -/
theorem modelStage_literal_of_metaFree (df : DataFrame) (c : FilterCriteria)
    (hcol : "Model" ∈ df.cols) (hmf : metaFree c.model_search) :
    (c.model_search = "" → modelStage c df = Except.ok df) ∧
    (¬ c.model_search = "" →
      modelStage c df = Except.ok
        { cols := df.cols,
          rows := df.rows.filter (fun row => specContainsCI (getCell row "Model") c.model_search) }
      ∧ specContainsCI "" c.model_search = false) := by
  constructor
  · intro he
    exact modelStage_pass c df he
  · intro hne
    refine ⟨?_, specContainsCI_empty_hay _ hne⟩
    unfold modelStage
    rw [if_neg hne]
    exact containsStage_literal "Model" c.model_search df hcol hmf

/-- C3 witness. -/
theorem modelStage_literal_witness :
    modelStage ⟨["All"], "All", "m4", "All", ""⟩
        ⟨["Model"], [[("Model", "M4 Coupe")], [("Model", "Audi R8")]]⟩
      = Except.ok
        { cols := ["Model"],
          rows := List.filter (fun row => specContainsCI (getCell row "Model") "m4")
            [[("Model", "M4 Coupe")], [("Model", "Audi R8")]] }
      ∧ specContainsCI "" "m4" = false :=
  (modelStage_literal_of_metaFree ⟨["Model"], [[("Model", "M4 Coupe")], [("Model", "Audi R8")]]⟩
    ⟨["All"], "All", "m4", "All", ""⟩ (by decide) (by decide)).2 (by decide)

/-- C4 counterexample: the free-text query is a regular expression, not
a literal substring.  With `Notes = "XY"`, `Tire_Part = ""` and
`freeText = "X."` the stage keeps the row although neither field
contains `"X."` as a literal substring, so "keeps a row iff Notes or
Tire_Part contains freeText as a substring" is false. -/
theorem freeStage_regex_cex :
    freeStage ⟨["All"], "All", "", "All", "X."⟩
        ⟨["Notes", "Tire_Part"], [[("Notes", "XY"), ("Tire_Part", "")]]⟩
      = Except.ok ⟨["Notes", "Tire_Part"], [[("Notes", "XY"), ("Tire_Part", "")]]⟩
      ∧ specContainsCI "XY" "X." = false ∧ specContainsCI "" "X." = false := by
  decide

/-- C4 (amended): provided the table has `Notes` and `Tire_Part`
columns and `freeText` contains no regex metacharacter, the free-text
stage keeps a row iff the row's Notes field OR its Tire_Part field
contains `freeText` as a literal substring case-insensitively — in
particular a row with the text in exactly one of the two fields is
kept; an empty `freeText` passes every row through.  (In general
`freeText` is interpreted as a case-insensitive regular expression,
which the counterexample shows to differ from literal containment.) -/
theorem freeStage_literal_of_metaFree (df : DataFrame) (c : FilterCriteria)
    (hN : "Notes" ∈ df.cols) (hT : "Tire_Part" ∈ df.cols) (hmf : metaFree c.free_search) :
    (c.free_search = "" → freeStage c df = Except.ok df) ∧
    (¬ c.free_search = "" →
      freeStage c df = Except.ok
        { cols := df.cols,
          rows := df.rows.filter (fun row =>
            specContainsCI (getCell row "Notes") c.free_search ||
            specContainsCI (getCell row "Tire_Part") c.free_search) }) := by
  constructor
  · intro he
    exact freeStage_pass c df he
  · intro hne
    exact freeStage_literal c df hne hN hT hmf

/-- C4 witness: `"917"` occurs only in the Notes field of the first row
and only in the Tire_Part field of the second; both rows are kept, the
third is dropped. -/
theorem freeStage_literal_witness :
    freeStage ⟨["All"], "All", "", "All", "917"⟩
        ⟨["Notes", "Tire_Part"],
          [[("Notes", "fits 917 bodies"), ("Tire_Part", "QS-01")],
           [("Notes", ""), ("Tire_Part", "ST-917X")],
           [("Notes", "front axle"), ("Tire_Part", "PG-20")]]⟩
      = Except.ok
        { cols := ["Notes", "Tire_Part"],
          rows := List.filter (fun row =>
              specContainsCI (getCell row "Notes") "917" ||
              specContainsCI (getCell row "Tire_Part") "917")
            [[("Notes", "fits 917 bodies"), ("Tire_Part", "QS-01")],
             [("Notes", ""), ("Tire_Part", "ST-917X")],
             [("Notes", "front axle"), ("Tire_Part", "PG-20")]] } :=
  (freeStage_literal_of_metaFree
    ⟨["Notes", "Tire_Part"],
      [[("Notes", "fits 917 bodies"), ("Tire_Part", "QS-01")],
       [("Notes", ""), ("Tire_Part", "ST-917X")],
       [("Notes", "front axle"), ("Tire_Part", "PG-20")]]⟩
    ⟨["All"], "All", "", "All", "917"⟩ (by decide) (by decide) (by decide)).2 (by decide)

/-- C5 counterexample: the Position selection is matched as a regular
expression, not a literal substring.  With `Position = "FR"` and
selection `"F."` the stage keeps the row although `"F."` does not occur
in `"FR"` as a literal substring, so "keeps a row iff the Position
field contains the selected position as a substring" is false. -/
theorem positionStage_regex_cex :
    positionStage ⟨["All"], "All", "", "F.", ""⟩ ⟨["Position"], [[("Position", "FR")]]⟩
        = Except.ok ⟨["Position"], [[("Position", "FR")]]⟩
      ∧ specContainsCI "FR" "F." = false := by
  decide

/-- C5 (amended): provided the table has a `Position` column and the
selected position contains no regex metacharacter, the Position stage
keeps a row iff the row's Position field contains the selection as a
literal substring case-insensitively (containment, not equality), so
the composite label `"Front/Rear"` matches the selection `"Front"`;
the sentinel `"All"` passes every row through.  (In general the
selection is interpreted as a case-insensitive regular expression,
which the counterexample shows to differ from literal containment.) -/
theorem positionStage_literal_of_metaFree (df : DataFrame) (c : FilterCriteria)
    (hcol : "Position" ∈ df.cols) (hmf : metaFree c.selected_position) :
    (c.selected_position = "All" → positionStage c df = Except.ok df) ∧
    (¬ c.selected_position = "All" →
      positionStage c df = Except.ok
        { cols := df.cols,
          rows := df.rows.filter (fun row =>
            specContainsCI (getCell row "Position") c.selected_position) })
    ∧ specContainsCI "Front/Rear" "Front" = true := by
  refine ⟨fun he => positionStage_pass c df he, ?_, by decide⟩
  intro hne
  unfold positionStage
  rw [if_neg hne]
  exact containsStage_literal "Position" c.selected_position df hcol hmf

/-- C5 witness: selecting `"Front"` keeps the composite row
`"Front/Rear"` and drops the `"Rear"` row. -/
theorem positionStage_literal_witness :
    positionStage ⟨["All"], "All", "", "Front", ""⟩
        ⟨["Position"], [[("Position", "Front/Rear")], [("Position", "Rear")]]⟩
      = Except.ok
        { cols := ["Position"],
          rows := List.filter (fun row => specContainsCI (getCell row "Position") "Front")
            [[("Position", "Front/Rear")], [("Position", "Rear")]] } :=
  ((positionStage_literal_of_metaFree
    ⟨["Position"], [[("Position", "Front/Rear")], [("Position", "Rear")]]⟩
    ⟨["All"], "All", "", "Front", ""⟩ (by decide) (by decide)).2.1 (by decide))

/-- C6: case sensitivity is asymmetric across stages.  The row with
`Model = "M4 Coupe"` and `Brand = "NSR"` is kept by the (substring,
case-insensitive) Model stage for the query `"m4"`, and dropped by the
(exact, case-sensitive) Brand stage for the selection `"nsr"`. -/
theorem case_rule_examples :
    applyFilters
        ⟨["Compound", "Brand", "Model", "Position", "Notes", "Tire_Part"],
          [[("Brand", "NSR"), ("Model", "M4 Coupe")]]⟩
        ⟨["All"], "All", "m4", "All", ""⟩
      = Except.ok
        ⟨["Compound", "Brand", "Model", "Position", "Notes", "Tire_Part"],
          [[("Brand", "NSR"), ("Model", "M4 Coupe")]]⟩
    ∧ applyFilters
        ⟨["Compound", "Brand", "Model", "Position", "Notes", "Tire_Part"],
          [[("Brand", "NSR"), ("Model", "M4 Coupe")]]⟩
        ⟨["All"], "nsr", "", "All", ""⟩
      = Except.ok ⟨["Compound", "Brand", "Model", "Position", "Notes", "Tire_Part"], []⟩ := by
  decide

/-- C7: whenever the pipeline succeeds, its result has the same columns
and its row sequence is a sublist (subsequence) of the input's rows: every
result row occurs in the input, in the input's original relative order,
with no duplication or reordering. -/
theorem pipeline_sublist (df : DataFrame) (c : FilterCriteria) (out : DataFrame)
    (h : applyFilters df c = Except.ok out) :
    out.cols = df.cols ∧ List.Sublist out.rows df.rows := by
  obtain ⟨hc, p, hr, _⟩ := applyFilters_SL c df out h
  refine ⟨hc, ?_⟩
  rw [hr]
  exact List.filter_sublist df.rows

/-- C7 witness. -/
theorem pipeline_sublist_witness :
    (⟨["Compound", "Brand"], [[("Compound", "Silicone"), ("Brand", "NSR")]]⟩ : DataFrame).cols
      = (⟨["Compound", "Brand"],
          [[("Compound", "Silicone"), ("Brand", "NSR")],
           [("Compound", "Rubber"), ("Brand", "Policar")]]⟩ : DataFrame).cols
    ∧ List.Sublist
        (⟨["Compound", "Brand"], [[("Compound", "Silicone"), ("Brand", "NSR")]]⟩ : DataFrame).rows
        (⟨["Compound", "Brand"],
          [[("Compound", "Silicone"), ("Brand", "NSR")],
           [("Compound", "Rubber"), ("Brand", "Policar")]]⟩ : DataFrame).rows :=
  pipeline_sublist
    ⟨["Compound", "Brand"],
      [[("Compound", "Silicone"), ("Brand", "NSR")],
       [("Compound", "Rubber"), ("Brand", "Policar")]]⟩
    ⟨["Silicone"], "All", "", "All", ""⟩
    ⟨["Compound", "Brand"], [[("Compound", "Silicone"), ("Brand", "NSR")]]⟩ (by decide)

/-- C8: with every criteria field at its no-restriction value (the
sentinel `"All"` among the selected compounds, brand `"All"`, empty
model query, position `"All"`, empty free-text query) the pipeline
returns the input table unchanged. -/
theorem pipeline_no_restriction (df : DataFrame) (c : FilterCriteria)
    (h1 : "All" ∈ c.selected_compounds) (h2 : c.selected_brand = "All")
    (h3 : c.model_search = "") (h4 : c.selected_position = "All")
    (h5 : c.free_search = "") :
    applyFilters df c = Except.ok df := by
  unfold applyFilters
  rw [bind_ok, compoundStage_pass _ _ h1, bind_ok, brandStage_pass _ _ h2, bind_ok,
    modelStage_pass _ _ h3, bind_ok, positionStage_pass _ _ h4, bind_ok,
    freeStage_pass _ _ h5]

/-- C8 witness. -/
theorem pipeline_no_restriction_witness :
    applyFilters
      ⟨["Compound", "Brand", "Model"],
        [[("Compound", "Silicone"), ("Brand", "NSR"), ("Model", "Audi R8")],
         [("Compound", "Rubber"), ("Brand", "Policar"), ("Model", "Porsche 917")]]⟩
      ⟨["All"], "All", "", "All", ""⟩
    = Except.ok
      ⟨["Compound", "Brand", "Model"],
        [[("Compound", "Silicone"), ("Brand", "NSR"), ("Model", "Audi R8")],
         [("Compound", "Rubber"), ("Brand", "Policar"), ("Model", "Porsche 917")]]⟩ :=
  pipeline_no_restriction _ _ (by decide) rfl rfl rfl rfl

/-- C9: the pipeline is idempotent: whenever `applyFilters df c`
succeeds with result `u`, running the pipeline again on `u` with the
same criteria succeeds and returns `u` unchanged. -/
theorem pipeline_idem (df : DataFrame) (c : FilterCriteria) (u : DataFrame)
    (h : applyFilters df c = Except.ok u) :
    applyFilters u c = Except.ok u := by
  obtain ⟨hc, p, hr, hs⟩ := applyFilters_SL c df u h
  have h2 : applyFilters u c = Except.ok { cols := u.cols, rows := u.rows.filter p } := hs u hc
  have hfix : u.rows.filter p = u.rows := by
    rw [hr]
    exact List.filter_eq_self.mpr (fun a ha => List.of_mem_filter ha)
  rw [h2, hfix]

/-- C9 witness. -/
theorem pipeline_idem_witness :
    applyFilters ⟨["Brand"], [[("Brand", "NSR")]]⟩ ⟨["All"], "NSR", "", "All", ""⟩
      = Except.ok ⟨["Brand"], [[("Brand", "NSR")]]⟩ :=
  pipeline_idem ⟨["Brand"], [[("Brand", "NSR")], [("Brand", "Policar")]]⟩
    ⟨["All"], "NSR", "", "All", ""⟩ ⟨["Brand"], [[("Brand", "NSR")]]⟩ (by decide)

/-- C10: membership of the sentinel `"All"` anywhere in the selected
compounds disables compound filtering entirely: the Compound stage
passes every row through, even when specific compound values are
selected alongside the sentinel. -/
theorem compoundStage_all_passes (sel : List String) (df : DataFrame) (h : "All" ∈ sel) :
    compoundStage sel df = Except.ok df := by
  unfold compoundStage
  rw [if_pos h]

/-- C10 witness: `"Silicone"` is selected alongside `"All"`, yet the
Rubber row is kept. -/
theorem compoundStage_all_passes_witness :
    compoundStage ["All", "Silicone"]
      ⟨["Compound"], [[("Compound", "Rubber")], [("Compound", "Silicone")]]⟩
    = Except.ok ⟨["Compound"], [[("Compound", "Rubber")], [("Compound", "Silicone")]]⟩ :=
  compoundStage_all_passes _ _ (by decide)
